import Mathlib

/-!
Verification of the crypto-custody offline client's secure-element storage
protocol, shallowly embedded from the Python sources:

* `src/offline-client/SE/secure_chip_client.py`  — variable-length variant,
  class `SecureChipClient` (namespace `SE` below);
* `src/offline-client/SE/test_applet.py`         — variable-length variant,
  standalone functions (namespace `TA` below);
* `src/offline-client/secured/test.py`           — fixed-length record
  variant (namespace `Secured` below).

Bytes are modelled as `Nat` (the Python scripts manipulate lists of ints in
the 0..255 range), byte strings as `List Nat`.  The smart-card transport
(`connection.transmit`) is modelled as a script: a finite list of responses,
consumed one per exchange.  Each client operation returns its outcome
together with the unconsumed remainder of the script and the ordered trace
of command frames it transmitted, so that claims about *which* frames are
sent (and in what order) are directly statable.
-/

namespace CryptoCustody

/-- One response from the card: response data plus the two status bytes
`sw1 sw2` (Python receives `response, sw1, sw2 = connection.transmit(...)`). -/
structure Resp where
  data : List Nat
  sw1  : Nat
  sw2  : Nat
  deriving DecidableEq, Repr

/-- The device, modelled as the finite list of responses it will give to the
successive exchanges. -/
abbrev Script := List Resp

/-- Result of running a client operation against a finite response script:
either the operation finished with a value, or the script ran out while the
client was still waiting for a response (`stuck` — in Python the call to
`connection.transmit` would still be blocking). -/
inductive Outcome (α : Type) where
  | stuck : Outcome α
  | done  : α → Outcome α
  deriving DecidableEq, Repr

/-! ## Frame codec — `SecureChipClient.send_apdu` (secure_chip_client.py:128-153)

The command-construction half of `send_apdu`.  Mirrors the Python exactly,
including the truthiness test `if data:` (an *empty* list provided as `data`
takes the `elif le is not None` branch, exactly like `None`):

    command = [cla, ins, p1, p2]
    if data:
        command.append(len(data)); command.extend(data)
    elif le is not None:
        command.append(0)
    if le is not None:
        command.append(le)
-/
def send_apdu_command (cla ins p1 p2 : Nat) (data : Option (List Nat))
    (le : Option Nat) : List Nat :=
  let base := [cla, ins, p1, p2]
  let withData :=
    match data with
    | some d =>
        if d = [] then
          match le with
          | some _ => base ++ [0]
          | none => base
        else base ++ [d.length] ++ d
    | none =>
        match le with
        | some _ => base ++ [0]
        | none => base
  match le with
  | some l => withData ++ [l]
  | none => withData

/-! ## Instruction constants (secure_chip_client.py:39-47, test_applet.py:17-23) -/

def CLA : Nat := 0x80
def INS_STORE_DATA_INIT : Nat := 0x10
def INS_STORE_DATA_CONTINUE : Nat := 0x11
def INS_STORE_DATA_FINALIZE : Nat := 0x12
def INS_READ_DATA_INIT : Nat := 0x20
def INS_READ_DATA_CONTINUE : Nat := 0x21
def INS_READ_DATA_FINALIZE : Nat := 0x22

/-! ## Chunking

`store_data` slices the message as `message_bytes[i:i+200]` for
`i in range(0, len(message_bytes), 200)` (secure_chip_client.py:192-198;
the `while offset < len` loop of test_applet.py:120-137 produces the same
slices).  `storeChunksAux` is fuel-indexed so that it is structurally
recursive; the fuel (initialised to the list length) never runs out because
every step removes at least one element. -/
def storeChunksAux : Nat → List Nat → List (List Nat)
  | 0, _ => []
  | _, [] => []
  | fuel + 1, x :: xs => ((x :: xs).take 200) :: storeChunksAux fuel ((x :: xs).drop 200)

/-- The size-200 chunks of `l`, in original order. -/
def storeChunks (l : List Nat) : List (List Nat) :=
  storeChunksAux l.length l

/-- INIT payload of the store direction, identical in both variable-length
clients (secure_chip_client.py:183, test_applet.py:111):
`[len(username_bytes)] + username_bytes + [len(address_bytes)] + address_bytes`. -/
def store_init_data (u a : List Nat) : List Nat :=
  [u.length] ++ u ++ [a.length] ++ a

/-- The store CONTINUE loop, shared shape of secure_chip_client.py:192-204 and
test_applet.py:127-137 (they differ only in how the CONTINUE frame is built,
abstracted as `contCmd`): one exchange per chunk, in order; each exchange must
return the full two-byte success status `[0x90, 0x00]`, any other status
aborts the whole store with `False`. -/
def store_loop_gen (contCmd : List Nat → List Nat) :
    Script → List (List Nat) → Outcome Bool × Script × List (List Nat)
  | script, [] => (.done true, script, [])
  | [], c :: _ => (.stuck, [], [contCmd c])
  | r :: s, c :: cs =>
    if r.sw1 = 0x90 ∧ r.sw2 = 0 then
      let t := store_loop_gen contCmd s cs
      (t.1, t.2.1, contCmd c :: t.2.2)
    else (.done false, s, [contCmd c])

/-- The three frame builders a store-direction client uses. -/
structure StoreCmds where
  initCmd : List Nat → List Nat → List Nat
  contCmd : List Nat → List Nat
  finCmd  : List Nat

/-- The full store sequence shared by secure_chip_client.py:164-214 and
test_applet.py:102-148: INIT (full-status-checked; failure aborts before any
CONTINUE), the CONTINUE loop over the 200-byte chunks of the message, then
FINALIZE (full-status-checked).  Returns (outcome, unconsumed script,
transmitted frames); `done true`/`done false` model `return True`/`return
False`. -/
def store_data_gen (cmds : StoreCmds) (script : Script) (u a m : List Nat) :
    Outcome Bool × Script × List (List Nat) :=
  match script with
  | [] => (.stuck, [], [cmds.initCmd u a])
  | r :: s =>
    if r.sw1 = 0x90 ∧ r.sw2 = 0 then
      match store_loop_gen cmds.contCmd s (storeChunks m) with
      | (.done true, s2, t) =>
        (match s2 with
         | [] => (.stuck, [], cmds.initCmd u a :: t ++ [cmds.finCmd])
         | r2 :: s3 =>
           ((if r2.sw1 = 0x90 ∧ r2.sw2 = 0 then .done true else .done false),
            s3, cmds.initCmd u a :: t ++ [cmds.finCmd]))
      | (.done false, s2, t) => (.done false, s2, cmds.initCmd u a :: t)
      | (.stuck, s2, t) => (.stuck, s2, cmds.initCmd u a :: t)
    else (.done false, s, [cmds.initCmd u a])

namespace SE

/-! ## Variable-length variant: `SecureChipClient` (secure_chip_client.py)

`store_data` and `read_data` take strings and immediately encode them with
UTF-8 (`username.encode('utf-8')`, ...); the models below work directly on
the encoded byte lists.  The ECDSA signature produced by
`generate_signature(username_bytes + address_bytes)` is an external
collaborator (the `ecdsa` library holding `PRIVATE_KEY`), so the read model
takes the signature bytes as a parameter. -/

/-- Store INIT frame, built through `send_apdu` (secure_chip_client.py:184). -/
def store_init_cmd (u a : List Nat) : List Nat :=
  send_apdu_command CLA INS_STORE_DATA_INIT 0 0 (some (store_init_data u a)) none

/-- Store CONTINUE frame for one chunk (secure_chip_client.py:198). -/
def store_cont_cmd (chunk : List Nat) : List Nat :=
  send_apdu_command CLA INS_STORE_DATA_CONTINUE 0 0 (some chunk) none

/-- FINALIZE frame: `send_apdu(CLA, INS_STORE_DATA_FINALIZE, 0, 0, [])`
(secure_chip_client.py:207); since `[]` is falsy the frame has no Lc byte. -/
def store_fin_cmd : List Nat :=
  send_apdu_command CLA INS_STORE_DATA_FINALIZE 0 0 (some []) none

def storeCmds : StoreCmds := ⟨store_init_cmd, store_cont_cmd, store_fin_cmd⟩

/-- `SecureChipClient.store_data` (secure_chip_client.py:164-214). -/
def store_data (script : Script) (u a m : List Nat) :
    Outcome Bool × Script × List (List Nat) :=
  store_data_gen storeCmds script u a m

/-- INIT payload of `read_data` (secure_chip_client.py:239-241): length-prefixed
username, address and signature. -/
def read_init_data (u a sig : List Nat) : List Nat :=
  [u.length] ++ u ++ [a.length] ++ a ++ [sig.length] ++ sig

def read_init_cmd (u a sig : List Nat) : List Nat :=
  send_apdu_command CLA INS_READ_DATA_INIT 0 0 (some (read_init_data u a sig)) none

/-- CONTINUE frame of the read loop:
`send_apdu(CLA, INS_READ_DATA_CONTINUE, 0, 0, None, 0)` (secure_chip_client.py:263). -/
def read_cont_cmd : List Nat :=
  send_apdu_command CLA INS_READ_DATA_CONTINUE 0 0 none (some 0)

/-- FINALIZE frame of read: `send_apdu(CLA, INS_READ_DATA_FINALIZE, 0, 0, [])`. -/
def read_fin_cmd : List Nat :=
  send_apdu_command CLA INS_READ_DATA_FINALIZE 0 0 (some []) none

/-- The `while more_data` loop of `read_data`
(secure_chip_client.py:259-273).  It inspects only the first status byte:
`0x90` ends the loop keeping the accumulated bytes, `0x61` accumulates and
continues, anything else returns `None`.  The total length reported by INIT
is *not* consulted anywhere in this loop. -/
def read_loop : Script → List Nat →
    Outcome (Option (List Nat)) × Script × List (List Nat)
  | [], _ => (.stuck, [], [read_cont_cmd])
  | r :: s, acc =>
    if r.sw1 = 0x90 then (.done (some (acc ++ r.data)), s, [read_cont_cmd])
    else if r.sw1 = 0x61 then
      let t := read_loop s (acc ++ r.data)
      (t.1, t.2.1, read_cont_cmd :: t.2.2)
    else (.done none, s, [read_cont_cmd])

/-- `SecureChipClient.read_data` (secure_chip_client.py:216-284).
The INIT gate is `if status[0] != 0x90: return None` — only the first status
byte is compared.  A response shorter than 2 bytes then yields `return None`
("响应数据格式错误").  `message_length = (response[0] << 8) | response[1]` is
computed only for logging and never drives the loop.  After the loop, the
FINALIZE exchange's status is only warned about; the accumulated bytes are
returned regardless. -/
def read_data : Script → List Nat → List Nat → List Nat →
    Outcome (Option (List Nat)) × Script × List (List Nat)
  | [], u, a, sig => (.stuck, [], [read_init_cmd u a sig])
  | r :: s, u, a, sig =>
    if r.sw1 = 0x90 then
      if r.data.length < 2 then (.done none, s, [read_init_cmd u a sig])
      else
        match read_loop s [] with
        | (.done (some acc), s2, t) =>
          (match s2 with
           | [] => (.stuck, [], read_init_cmd u a sig :: t ++ [read_fin_cmd])
           | _ :: s3 =>
             (.done (some acc), s3, read_init_cmd u a sig :: t ++ [read_fin_cmd]))
        | (.done none, s2, t) => (.done none, s2, read_init_cmd u a sig :: t)
        | (.stuck, s2, t) => (.stuck, s2, read_init_cmd u a sig :: t)
    else (.done none, s, [read_init_cmd u a sig])

end SE

namespace TA

/-! ## Variable-length variant: test_applet.py

Same INIT/CONTINUE/FINALIZE protocol, but frames are assembled by hand
(`[CLA, INS, 0x00, 0x00, len(data)] + data`) rather than through `send_apdu`,
and the read loop does consult the total length reported by INIT. -/

def store_init_cmd (u a : List Nat) : List Nat :=
  [CLA, INS_STORE_DATA_INIT, 0, 0, (store_init_data u a).length] ++ store_init_data u a

def store_cont_cmd (chunk : List Nat) : List Nat :=
  [CLA, INS_STORE_DATA_CONTINUE, 0, 0, chunk.length] ++ chunk

/-- `command = [CLA, INS_STORE_FINALIZE, 0x00, 0x00, 0x00]` (test_applet.py:140). -/
def store_fin_cmd : List Nat :=
  [CLA, INS_STORE_DATA_FINALIZE, 0, 0, 0]

def storeCmds : StoreCmds := ⟨store_init_cmd, store_cont_cmd, store_fin_cmd⟩

/-- `store_data` (test_applet.py:102-148). -/
def store_data (script : Script) (u a m : List Nat) :
    Outcome Bool × Script × List (List Nat) :=
  store_data_gen storeCmds script u a m

/-- Read INIT payload (test_applet.py:159-162): length-prefixed username and
address followed by a zero signature-length byte (no signature sent). -/
def read_init_data (u a : List Nat) : List Nat :=
  [u.length] ++ u ++ [a.length] ++ a ++ [0]

/-- `command = [CLA, INS_READ_INIT, 0x00, 0x00, len(data)] + data + [0x02]`
(test_applet.py:165). -/
def read_init_cmd (u a : List Nat) : List Nat :=
  [CLA, INS_READ_DATA_INIT, 0, 0, (read_init_data u a).length] ++ read_init_data u a ++ [0x02]

/-- `command = [CLA, INS_READ_CONTINUE, 0x00, 0x00, expected_len]`
(test_applet.py:197). -/
def read_cont_cmd (el : Nat) : List Nat :=
  [CLA, INS_READ_DATA_CONTINUE, 0, 0, el]

/-- `message_length = (response[0] << 8) | response[1]` (test_applet.py:176). -/
def msg_length (resp : List Nat) : Nat :=
  (resp.getD 0 0) <<< 8 ||| (resp.getD 1 0)

/-- The `while more_data` loop of `read_data` (test_applet.py:182-211).
Before each exchange the loop stops successfully if the accumulated bytes
have reached `message_length` (or if the computed expected length is zero);
otherwise one CONTINUE is sent with `expected_len = min(0xF0, remaining)`.
A `0x61xx` status accumulates and continues, the full success status
accumulates and stops, anything else yields `None`. -/
def read_loop : Script → List Nat → Nat →
    Outcome (Option (List Nat)) × Script × List (List Nat)
  | script, acc, ml =>
    if ml ≤ acc.length then (.done (some acc), script, [])
    else
      let el := min 0xF0 (ml - acc.length)
      if el = 0 then (.done (some acc), script, [])
      else
        match script with
        | [] => (.stuck, [], [read_cont_cmd el])
        | r :: s =>
          if r.sw1 = 0x61 then
            let t := read_loop s (acc ++ r.data) ml
            (t.1, t.2.1, read_cont_cmd el :: t.2.2)
          else if r.sw1 = 0x90 ∧ r.sw2 = 0 then
            (.done (some (acc ++ r.data)), s, [read_cont_cmd el])
          else (.done none, s, [read_cont_cmd el])

/-- `read_data` (test_applet.py:151-223).  The INIT status is checked against
the full two-byte success code; a response shorter than 2 bytes yields
`None`; otherwise its first two bytes, big-endian, become `message_length`
and drive the loop.  The READ FINALIZE exchange is commented out in the
source, so none is sent. -/
def read_data : Script → List Nat → List Nat →
    Outcome (Option (List Nat)) × Script × List (List Nat)
  | [], u, a => (.stuck, [], [read_init_cmd u a])
  | r :: s, u, a =>
    if r.sw1 = 0x90 ∧ r.sw2 = 0 then
      if 2 ≤ r.data.length then
        let t := read_loop s [] (msg_length r.data)
        (t.1, t.2.1, read_init_cmd u a :: t.2.2)
      else (.done none, s, [read_init_cmd u a])
    else (.done none, s, [read_init_cmd u a])

end TA

namespace Secured

/-! ## Fixed-length record variant: secured/test.py

Single-exchange operations over fixed-width records: username padded to 32
bytes, address to 64, message to 32; reads strip trailing zero bytes.  Each
operation is one `connection.transmit`, so the device is modelled as the
single `Resp` it returns.  The DER signature produced by
`sign_data(private_key, username_bytes + address_bytes)` is an external
collaborator and is passed in as a parameter. -/

def USERNAME_LENGTH : Nat := 32
def ADDR_LENGTH : Nat := 64
def MESSAGE_LENGTH : Nat := 32

/-- `pad_data` (secured/test.py:56-60): `data.ljust(length, b'\x00')` —
appends zero bytes up to `length`; data already at least `length` long is
returned unchanged. -/
def pad_data (d : List Nat) (w : Nat) : List Nat :=
  d ++ List.replicate (w - d.length) 0

/-- `bytes(response).rstrip(b'\x00')` (secured/test.py:157): drop every
trailing zero byte. -/
def rstrip_zero (l : List Nat) : List Nat :=
  (l.reverse.dropWhile (fun b => b == 0)).reverse

/-- The record sent by `store_data` (secured/test.py:106-111):
`pad_data(username, 32) + pad_data(address, 64) + pad_data(message, 32)`. -/
def store_record (u a m : List Nat) : List Nat :=
  pad_data u USERNAME_LENGTH ++ pad_data a ADDR_LENGTH ++ pad_data m MESSAGE_LENGTH

def store_cmd (u a m : List Nat) : List Nat :=
  [CLA, 0x10, 0, 0, (store_record u a m).length] ++ store_record u a m

/-- `store_data` (secured/test.py:99-128): one exchange; `True` iff the
status is exactly `(0x90, 0x00)`. -/
def store_data (r : Resp) (u a m : List Nat) : Bool × List Nat :=
  ((if r.sw1 = 0x90 ∧ r.sw2 = 0 then true else false), store_cmd u a m)

/-- The request sent by `read_data` (secured/test.py:138-146): padded
username and address followed by the DER signature. -/
def read_request (u a sig : List Nat) : List Nat :=
  pad_data u USERNAME_LENGTH ++ pad_data a ADDR_LENGTH ++ sig

def read_cmd (u a sig : List Nat) : List Nat :=
  [CLA, 0x20, 0, 0, (read_request u a sig).length] ++ read_request u a sig

/-- `read_data` (secured/test.py:131-170): one exchange; on the exact status
`(0x90, 0x00)` the response with its trailing zero padding stripped is
returned, on any other status `None`. -/
def read_data (r : Resp) (u a sig : List Nat) : Option (List Nat) × List Nat :=
  ((if r.sw1 = 0x90 ∧ r.sw2 = 0 then some (rstrip_zero r.data) else none),
   read_cmd u a sig)

end Secured

/-! ## Spec-modelled device responses

The on-device JavaCard applet (`SecurityChipApplet`) is not part of this
repository — only its clients are under `src/`.  To state round-trip claims
the device's response behaviour is modelled from the spec. -/

/-- A success response carrying no data. -/
def okResp : Resp := ⟨[], 0x90, 0⟩

/-- Modelled from the spec: a store succeeds when the device answers every
INIT / CONTINUE / FINALIZE exchange with the success status `90 00`
(spec §4.2 store direction); the response data of those exchanges is unused. -/
def storeOkScript (m : List Nat) : Script :=
  List.replicate (1 + (storeChunks m).length + 1) okResp

/-- Modelled from the spec (§4.2 read direction, §6 wire layout): the device
returns the stored payload split into chunks; every chunk but the last
arrives with continuation status `0x61 xx`, the last with success `90 00`.
An empty payload arrives as one empty success response. -/
def deviceReadResps : List (List Nat) → Script
  | [] => [⟨[], 0x90, 0⟩]
  | [c] => [⟨c, 0x90, 0⟩]
  | c :: c2 :: cs => ⟨c, 0x61, 0⟩ :: deviceReadResps (c2 :: cs)

/-- Modelled from the spec (§4.2 `beginRead`): the read INIT response whose
first two bytes, big-endian, report the total length of the stored payload. -/
def readInitResp (m : List Nat) : Resp :=
  ⟨[m.length / 256 % 256, m.length % 256], 0x90, 0⟩

/-- Modelled from the spec: the whole successful read conversation for a
stored payload `m` delivered in chunks `cs` — the INIT response, the chunk
responses, then a success response to the advisory FINALIZE. -/
def readOkScript (m : List Nat) (cs : List (List Nat)) : Script :=
  readInitResp m :: deviceReadResps cs ++ [okResp]

/-! ## Spec-modelled Session/State Tracker (spec §3 TransferState, §4.4)

No such component exists in `src/` (the scripts inline their sequencing),
so it is modelled from the spec's words. -/

inductive Direction where
  | store : Direction
  | read : Direction
  deriving DecidableEq, Repr

/-- Modelled from the spec (§3): the mutable state of one in-flight chunked
operation. -/
structure TransferState where
  dir : Direction
  bytesTransferred : Nat
  totalLength : Option Nat
  deriving DecidableEq, Repr

inductive SessionError where
  | noActiveOperation : SessionError
  | initRejected : SessionError
  deriving DecidableEq, Repr

/-- Modelled from the spec (§4.4): the Session/State Tracker holds at most
one active `TransferState`; `none` means no INIT has succeeded. -/
structure Session where
  active : Option TransferState
  deriving DecidableEq, Repr

def Session.idle : Session := ⟨none⟩

/-- Modelled from the spec (§4.2 step 1): `beginStore` sends the INIT frame;
only a success response creates the active `TransferState`. -/
def sessionBeginStore (u a : List Nat) (initOk : Bool) :
    Except SessionError Session × List (List Nat) :=
  ((if initOk then .ok ⟨some ⟨.store, 0, none⟩⟩ else .error .initRejected),
   [SE.store_init_cmd u a])

/-- Modelled from the spec (§4.4): a CONTINUE with no active operation fails
fast with `NoActiveOperation` and sends nothing; otherwise the chunk frame is
sent and the progress counter advances. -/
def sessionContinueStore (s : Session) (chunk : List Nat) :
    Except SessionError Session × List (List Nat) :=
  match s.active with
  | none => (.error .noActiveOperation, [])
  | some st =>
    (.ok ⟨some { st with bytesTransferred := st.bytesTransferred + chunk.length }⟩,
     [SE.store_cont_cmd chunk])

/-- Modelled from the spec (§4.4): a FINALIZE with no active operation fails
fast with `NoActiveOperation` and sends nothing; otherwise the appropriate
FINALIZE frame is sent and the session returns to idle. -/
def sessionFinalize (s : Session) :
    Except SessionError Session × List (List Nat) :=
  match s.active with
  | none => (.error .noActiveOperation, [])
  | some st =>
    (.ok Session.idle,
     [match st.dir with
      | .store => SE.store_fin_cmd
      | .read => SE.read_fin_cmd])

/-! ## Lemmas about chunking -/

theorem storeChunksAux_join (fuel : Nat) :
    ∀ l : List Nat, l.length ≤ fuel → (storeChunksAux fuel l).flatten = l := by
  induction fuel with
  | zero =>
    intro l hl
    have : l = [] := List.eq_nil_of_length_eq_zero (Nat.le_zero.mp hl)
    subst this
    simp [storeChunksAux]
  | succ fuel ih =>
    intro l hl
    match l with
    | [] => simp [storeChunksAux]
    | x :: xs =>
      have hdrop : ((x :: xs).drop 200).length ≤ fuel := by
        simp only [List.length_drop, List.length_cons] at *
        omega
      simp only [storeChunksAux, List.flatten_cons, ih _ hdrop]
      exact List.take_append_drop 200 (x :: xs)

theorem storeChunksAux_length (fuel : Nat) :
    ∀ l : List Nat, l.length ≤ fuel →
      (storeChunksAux fuel l).length = (l.length + 199) / 200 := by
  induction fuel with
  | zero =>
    intro l hl
    have : l = [] := List.eq_nil_of_length_eq_zero (Nat.le_zero.mp hl)
    subst this
    simp [storeChunksAux]
  | succ fuel ih =>
    intro l hl
    match l with
    | [] => simp [storeChunksAux]
    | x :: xs =>
      have hdrop : ((x :: xs).drop 200).length ≤ fuel := by
        simp only [List.length_drop, List.length_cons] at *
        omega
      simp only [storeChunksAux, List.length_cons, ih _ hdrop, List.length_drop,
        List.length_cons]
      omega

theorem storeChunks_join (l : List Nat) : (storeChunks l).flatten = l :=
  storeChunksAux_join l.length l (Nat.le_refl _)

theorem storeChunks_length (l : List Nat) :
    (storeChunks l).length = (l.length + 199) / 200 :=
  storeChunksAux_length l.length l (Nat.le_refl _)

theorem storeChunks_nil : storeChunks [] = [] := rfl

/-! ## Lemmas about the store sequence -/

theorem store_loop_gen_cons_ok (cc : List Nat → List Nat) (r : Resp) (s : Script)
    (c : List Nat) (cs : List (List Nat)) (h : r.sw1 = 0x90 ∧ r.sw2 = 0) :
    store_loop_gen cc (r :: s) (c :: cs) =
      ((store_loop_gen cc s cs).1, (store_loop_gen cc s cs).2.1,
       cc c :: (store_loop_gen cc s cs).2.2) := by
  simp [store_loop_gen, h]

theorem store_loop_gen_ok (cc : List Nat → List Nat) (cs : List (List Nat)) :
    ∀ rest : Script,
      store_loop_gen cc (List.replicate cs.length okResp ++ rest) cs =
        (.done true, rest, cs.map cc) := by
  induction cs with
  | nil => intro rest; simp [store_loop_gen]
  | cons c cs ih =>
    intro rest
    simp only [List.length_cons, List.replicate_succ, List.cons_append, List.map_cons]
    rw [store_loop_gen_cons_ok cc okResp _ c cs ⟨rfl, rfl⟩, ih rest]

theorem store_data_gen_ok (cmds : StoreCmds) (u a m : List Nat) :
    store_data_gen cmds (storeOkScript m) u a m =
      (.done true, [],
       cmds.initCmd u a :: (storeChunks m).map cmds.contCmd ++ [cmds.finCmd]) := by
  have hrep : storeOkScript m =
      okResp :: (List.replicate (storeChunks m).length okResp ++ [okResp]) := by
    simp only [storeOkScript]
    rw [show 1 + (storeChunks m).length + 1 = ((storeChunks m).length + 1) + 1 by omega]
    rw [List.replicate_succ, List.replicate_succ']
  rw [hrep]
  simp only [store_data_gen]
  rw [store_loop_gen_ok cmds.contCmd (storeChunks m) [okResp]]
  simp [okResp]

theorem store_data_gen_init_rejected (cmds : StoreCmds) (r : Resp) (s : Script)
    (u a m : List Nat) (h : ¬(r.sw1 = 0x90 ∧ r.sw2 = 0)) :
    store_data_gen cmds (r :: s) u a m = (.done false, s, [cmds.initCmd u a]) := by
  simp [store_data_gen, h]

/-! ## Lemmas about the SE read loop -/

theorem SE.read_loop_more_resp (r : Resp) (s : Script) (acc : List Nat)
    (h61 : r.sw1 = 0x61) :
    SE.read_loop (r :: s) acc =
      ((SE.read_loop s (acc ++ r.data)).1, (SE.read_loop s (acc ++ r.data)).2.1,
       SE.read_cont_cmd :: (SE.read_loop s (acc ++ r.data)).2.2) := by
  simp [SE.read_loop, h61]

theorem SE.read_loop_resps (cs : List (List Nat)) :
    ∀ (rest : Script) (acc : List Nat),
      SE.read_loop (deviceReadResps cs ++ rest) acc =
        (.done (some (acc ++ cs.flatten)), rest,
         List.replicate (deviceReadResps cs).length SE.read_cont_cmd) := by
  induction cs with
  | nil => intro rest acc; simp [deviceReadResps, SE.read_loop]
  | cons c cs ih =>
    intro rest acc
    match cs with
    | [] => simp [deviceReadResps, SE.read_loop]
    | c2 :: cs' =>
      have hsplit : deviceReadResps (c :: c2 :: cs') ++ rest =
          (⟨c, 0x61, 0⟩ : Resp) :: (deviceReadResps (c2 :: cs') ++ rest) := by
        simp [deviceReadResps]
      rw [hsplit,
        SE.read_loop_more_resp ⟨c, 0x61, 0⟩ (deviceReadResps (c2 :: cs') ++ rest) acc rfl,
        ih rest (acc ++ c)]
      simp [deviceReadResps, List.replicate_succ, List.append_assoc]

theorem SE.read_data_ok (u a sig m : List Nat) (cs : List (List Nat))
    (hj : cs.flatten = m) :
    SE.read_data (readOkScript m cs) u a sig =
      (.done (some m), [],
       SE.read_init_cmd u a sig ::
         List.replicate (deviceReadResps cs).length SE.read_cont_cmd ++
           [SE.read_fin_cmd]) := by
  have hscript : readOkScript m cs =
      readInitResp m :: (deviceReadResps cs ++ [okResp]) := rfl
  rw [hscript]
  simp only [SE.read_data, readInitResp]
  rw [SE.read_loop_resps cs [okResp] []]
  simp [hj]

/-! ## Lemmas about the TA read loop -/

/-- Dual-termination, first half: once the accumulated bytes have reached the
reported total, the loop stops before transmitting anything further. -/
theorem TA.read_loop_reached (script : Script) (acc : List Nat) (ml : Nat)
    (h : ml ≤ acc.length) :
    TA.read_loop script acc ml = (.done (some acc), script, []) := by
  simp [TA.read_loop, h]

/-- Dual-termination, second half: a full-success response ends the loop at
once, with exactly that one CONTINUE sent. -/
theorem TA.read_loop_success (r : Resp) (s : Script) (acc : List Nat) (ml : Nat)
    (hlt : acc.length < ml) (h1 : r.sw1 = 0x90) (h2 : r.sw2 = 0) :
    TA.read_loop (r :: s) acc ml =
      (.done (some (acc ++ r.data)), s,
       [TA.read_cont_cmd (min 0xF0 (ml - acc.length))]) := by
  have hne : ¬(ml ≤ acc.length) := by omega
  have hel : ¬(min 0xF0 (ml - acc.length) = 0) := by omega
  have h61 : ¬(r.sw1 = 0x61) := by omega
  simp [TA.read_loop, hne, hel, h61, h1, h2]

/-- One step of the TA read loop on a `0x61` (more data) response: the
response bytes are appended and the loop recurses on the rest of the script. -/
theorem TA.read_loop_step_more (r : Resp) (s : Script) (acc : List Nat) (ml : Nat)
    (h : ¬ml ≤ acc.length) (h61 : r.sw1 = 0x61) :
    TA.read_loop (r :: s) acc ml =
      ((TA.read_loop s (acc ++ r.data) ml).1, (TA.read_loop s (acc ++ r.data) ml).2.1,
       TA.read_cont_cmd (min 0xF0 (ml - acc.length)) ::
         (TA.read_loop s (acc ++ r.data) ml).2.2) := by
  have hel : ¬(min 0xF0 (ml - acc.length) = 0) := by omega
  rw [TA.read_loop]
  simp [h, hel, h61]

/-- One step of the TA read loop on a failing response: the loop returns
`None` at once. -/
theorem TA.read_loop_cons_fail (r : Resp) (s : Script) (acc : List Nat) (ml : Nat)
    (h : ¬ml ≤ acc.length) (h61 : ¬r.sw1 = 0x61) (h90 : ¬(r.sw1 = 0x90 ∧ r.sw2 = 0)) :
    TA.read_loop (r :: s) acc ml =
      (.done none, s, [TA.read_cont_cmd (min 0xF0 (ml - acc.length))]) := by
  have hel : ¬(min 0xF0 (ml - acc.length) = 0) := by omega
  rw [TA.read_loop]
  simp [h, hel, h61, h90]

/-- Termination of the TA read loop: against any device whose `0x61` (more
data) responses are all nonempty, the loop finishes within `ml` exchanges —
it cannot stay stuck consuming an arbitrarily long script. -/
theorem TA.read_loop_no_stuck (script : Script) :
    ∀ (acc : List Nat) (ml : Nat),
      (∀ r ∈ script, r.sw1 = 0x61 → r.data ≠ []) →
      ml ≤ acc.length + script.length →
      (TA.read_loop script acc ml).1 ≠ .stuck := by
  induction script with
  | nil =>
    intro acc ml _ hlen
    have h : ml ≤ acc.length := by simpa using hlen
    rw [TA.read_loop_reached _ _ _ h]
    intro hc
    exact Outcome.noConfusion hc
  | cons r s ih =>
    intro acc ml hne hlen
    by_cases h : ml ≤ acc.length
    · rw [TA.read_loop_reached _ _ _ h]
      intro hc
      exact Outcome.noConfusion hc
    · by_cases h61 : r.sw1 = 0x61
      · have hr : r.data ≠ [] := hne r (List.mem_cons_self r s) h61
        have hrlen : 1 ≤ r.data.length := by
          cases hd : r.data with
          | nil => exact absurd hd hr
          | cons y ys => simp
        rw [TA.read_loop_step_more r s acc ml h h61]
        simp only []
        apply ih (acc ++ r.data) ml
        · intro r' hr' h61'
          exact hne r' (List.mem_cons_of_mem r hr') h61'
        · simp only [List.length_append, List.length_cons] at *
          omega
      · by_cases h90 : r.sw1 = 0x90 ∧ r.sw2 = 0
        · rw [TA.read_loop_success r s acc ml (by omega) h90.1 h90.2]
          intro hc
          exact Outcome.noConfusion hc
        · rw [TA.read_loop_cons_fail r s acc ml h h61 h90]
          intro hc
          exact Outcome.noConfusion hc

/-! ## Big-endian length helper -/

theorem shiftLeft_lor_eq (b0 b1 : Nat) (h : b1 < 256) :
    b0 <<< 8 ||| b1 = 256 * b0 + b1 := by
  have h2 : b1 < 2 ^ 8 := by norm_num [h]
  rw [Nat.shiftLeft_eq, Nat.mul_comm b0 (2 ^ 8), ← Nat.mul_add_lt_is_or h2 b0]

/-! ## Lemmas about zero padding and stripping (fixed-length variant) -/

theorem Secured.rstrip_zero_eq_rdropWhile (l : List Nat) :
    Secured.rstrip_zero l = l.rdropWhile (fun b => b == 0) := rfl

/-- Stripping absorbs any appended zero padding. -/
theorem Secured.rstrip_zero_append_replicate (l : List Nat) (k : Nat) :
    Secured.rstrip_zero (l ++ List.replicate k 0) = Secured.rstrip_zero l := by
  induction k with
  | zero => simp
  | succ k ih =>
    rw [List.replicate_succ', ← List.append_assoc]
    rw [Secured.rstrip_zero_eq_rdropWhile, List.rdropWhile_concat_pos _ _ _ (by simp)]
    exact ih

theorem Secured.rstrip_zero_pad_data (m : List Nat) (w : Nat) :
    Secured.rstrip_zero (Secured.pad_data m w) = Secured.rstrip_zero m :=
  Secured.rstrip_zero_append_replicate m (w - m.length)

/-- A list whose last byte is nonzero (or which is empty) is left unchanged. -/
theorem Secured.rstrip_zero_of_getLast (m : List Nat) (h : m.getLast? ≠ some 0) :
    Secured.rstrip_zero m = m := by
  rw [Secured.rstrip_zero_eq_rdropWhile, List.rdropWhile_eq_self_iff]
  intro hl
  rw [List.getLast?_eq_getLast m hl] at h
  simpa using fun he => h (congrArg some he)

/-- A list whose last byte is zero is genuinely truncated: the result is a
strictly shorter prefix. -/
theorem Secured.rstrip_zero_of_getLast_zero (m : List Nat) (h : m.getLast? = some 0) :
    Secured.rstrip_zero m ≠ m ∧ ∃ k, Secured.rstrip_zero m = m.take k := by
  constructor
  · rw [Secured.rstrip_zero_eq_rdropWhile]
    intro he
    rw [List.rdropWhile_eq_self_iff] at he
    have hl : m ≠ [] := by
      intro hnil
      rw [hnil] at h
      simp at h
    have := he hl
    rw [List.getLast?_eq_getLast m hl] at h
    have hz : m.getLast hl = 0 := by simpa using h
    rw [hz] at this
    simp at this
  · have hpre : Secured.rstrip_zero m <+: m := by
      rw [Secured.rstrip_zero_eq_rdropWhile]
      exact List.rdropWhile_prefix _ _
    exact ⟨(Secured.rstrip_zero m).length, List.prefix_iff_eq_take.mp hpre⟩

/-! ## Claim theorems -/

/-- **C1.** For every payload of length L ≥ 0, in the variable-length variant,
a successful `store_data(key, payload)` followed by a `read_data(key)`
carrying a correctly authorized request returns exactly the original payload,
byte-for-byte.  The device (the on-card applet, not part of the repository)
is modelled from the spec: it acknowledges every store exchange with success
and returns the stored payload on read, chunked into an arbitrary sequence
`cs` of chunks whose concatenation is the stored payload. -/
theorem C1_store_read_roundtrip (u a sig m : List Nat) (cs : List (List Nat))
    (hj : cs.flatten = m) :
    (SE.store_data (storeOkScript m) u a m).1 = .done true ∧
    (SE.read_data (readOkScript m cs) u a sig).1 = .done (some m) := by
  constructor
  · simp only [SE.store_data]
    rw [store_data_gen_ok]
  · rw [SE.read_data_ok u a sig m cs hj]

/-- Witness for C1 at a concrete payload and a concrete device chunking. -/
theorem C1_store_read_roundtrip_witness :
    (SE.store_data (storeOkScript [1, 2, 3]) [7] [8] [1, 2, 3]).1 = .done true ∧
    (SE.read_data (readOkScript [1, 2, 3] [[1], [2, 3]]) [7] [8] [9]).1 =
      .done (some [1, 2, 3]) :=
  C1_store_read_roundtrip [7] [8] [9] [1, 2, 3] [[1], [2, 3]] (by decide)

/-- **C2.** For every payload of length L and chunk size 200, a fully
successful store issues exactly ⌈L / 200⌉ CONTINUE exchanges (the trace is
precisely INIT, one CONTINUE per chunk in original order, then FINALIZE),
the chunks concatenate back to the payload, and L = 0 produces zero CONTINUE
exchanges followed immediately by FINALIZE — in both variable-length
clients. -/
theorem C2_store_chunk_exchanges (u a m : List Nat) :
    SE.store_data (storeOkScript m) u a m =
      (.done true, [],
       SE.store_init_cmd u a :: (storeChunks m).map SE.store_cont_cmd ++
         [SE.store_fin_cmd]) ∧
    TA.store_data (storeOkScript m) u a m =
      (.done true, [],
       TA.store_init_cmd u a :: (storeChunks m).map TA.store_cont_cmd ++
         [TA.store_fin_cmd]) ∧
    (storeChunks m).length = (m.length + 199) / 200 ∧
    (storeChunks m).flatten = m ∧
    storeChunks [] = [] := by
  refine ⟨?_, ?_, storeChunks_length m, storeChunks_join m, rfl⟩
  · simp only [SE.store_data]
    rw [store_data_gen_ok]
    rfl
  · simp only [TA.store_data]
    rw [store_data_gen_ok]
    rfl

/-- **C3 counterexample.**  In `SecureChipClient.read_data` the CONTINUE loop
does **not** stop when the accumulated bytes reach the total length reported
by INIT: with a reported total of 1 byte and a device that answers every
CONTINUE with `0x61` (MoreData) carrying one byte, the loop consumes five
MoreData responses (accumulating five bytes, five times the reported total)
and is still waiting for more — the trace holds the INIT frame plus six
CONTINUE frames, where the claim admits exactly one. -/
theorem C3_counterexample :
    (SE.read_data (⟨[0, 1], 0x90, 0⟩ :: List.replicate 5 ⟨[1], 0x61, 0⟩)
        [] [] []).1 = Outcome.stuck ∧
    (SE.read_data (⟨[0, 1], 0x90, 0⟩ :: List.replicate 5 ⟨[1], 0x61, 0⟩)
        [] [] []).2.2 =
      SE.read_init_cmd [] [] [] :: List.replicate 6 SE.read_cont_cmd :=
  ⟨rfl, rfl⟩

/-- **C3 (amended).**  The dual termination condition holds for the read loop
of `test_applet.py` (not for `secure_chip_client.py`, whose loop never
consults the reported total — see the counterexample): the loop stops, before
transmitting anything, as soon as the accumulated bytes reach the reported
total; a full-success response also stops it; and against any device whose
MoreData responses all carry at least one byte it cannot consume more script
entries than the reported total — in particular it cannot run forever. -/
theorem C3_read_loop_dual_termination (s : Script) (r : Resp) (acc : List Nat)
    (ml : Nat) :
    (ml ≤ acc.length → TA.read_loop s acc ml = (.done (some acc), s, [])) ∧
    (acc.length < ml → r.sw1 = 0x90 → r.sw2 = 0 →
      TA.read_loop (r :: s) acc ml =
        (.done (some (acc ++ r.data)), s,
         [TA.read_cont_cmd (min 0xF0 (ml - acc.length))])) ∧
    ((∀ x ∈ s, x.sw1 = 0x61 → x.data ≠ []) → ml ≤ acc.length + s.length →
      (TA.read_loop s acc ml).1 ≠ .stuck) := by
  refine ⟨fun h => TA.read_loop_reached s acc ml h,
    fun hlt h1 h2 => TA.read_loop_success r s acc ml hlt h1 h2,
    fun hne hlen => TA.read_loop_no_stuck s acc ml hne hlen⟩

/-- Witness for the amended C3: all three conclusions at concrete inputs. -/
theorem C3_read_loop_dual_termination_witness :
    TA.read_loop [⟨[9], 0x61, 0⟩] [1, 2] 2 =
      (.done (some [1, 2]), [⟨[9], 0x61, 0⟩], []) ∧
    TA.read_loop (⟨[3], 0x90, 0⟩ :: [⟨[9], 0x61, 0⟩]) [1, 2] 3 =
      (.done (some [1, 2, 3]), [⟨[9], 0x61, 0⟩], [TA.read_cont_cmd 1]) ∧
    (TA.read_loop [⟨[9], 0x61, 0⟩] [] 1).1 ≠ .stuck :=
  ⟨(C3_read_loop_dual_termination [⟨[9], 0x61, 0⟩] ⟨[3], 0x90, 0⟩ [1, 2] 2).1
      (by decide),
   (C3_read_loop_dual_termination [⟨[9], 0x61, 0⟩] ⟨[3], 0x90, 0⟩ [1, 2] 3).2.1
      (by decide) rfl rfl,
   (C3_read_loop_dual_termination [⟨[9], 0x61, 0⟩] ⟨[3], 0x90, 0⟩ [] 1).2.2
      (by decide) (by decide)⟩

/-- **C4 counterexample.**  `SecureChipClient.read_data` gates the INIT
exchange with `if status[0] != 0x90`, comparing only the *first* status byte:
on the status `[0x90, 0x01]` — which is **not** the success code
`[0x90, 0x00]` — it does not fail, proceeds to the CONTINUE loop, and hands
the payload `[65]` to the caller, where the claim requires failure with no
payload bytes. -/
theorem C4_counterexample :
    ¬((0x90 : Nat) = 0x90 ∧ (0x01 : Nat) = 0) ∧
    (SE.read_data [⟨[0, 1], 0x90, 0x01⟩, ⟨[65], 0x90, 0⟩, ⟨[], 0x90, 0⟩]
        [] [] []).1 = .done (some [65]) :=
  ⟨by decide, rfl⟩

/-- **C4 (amended).**  In `secure_chip_client.py` a read whose INIT status has
a *first byte* other than `0x90` — covering both invalid signature and
nonexistent key, which the protocol does not distinguish — fails immediately,
returns no payload bytes, and sends nothing beyond the INIT frame (a status
`[0x90, n]` with `n ≠ 0` is however treated as success, see the
counterexample).  In the fixed-length variant (`secured/test.py`) any status
other than the full two-byte success code makes the read return `None`. -/
theorem C4_read_init_rejected (u a sig : List Nat) (r : Resp) (s : Script)
    (rf : Resp) (h : ¬r.sw1 = 0x90) (hf : ¬(rf.sw1 = 0x90 ∧ rf.sw2 = 0)) :
    SE.read_data (r :: s) u a sig = (.done none, s, [SE.read_init_cmd u a sig]) ∧
    (Secured.read_data rf u a sig).1 = none := by
  constructor
  · simp [SE.read_data, h]
  · simp [Secured.read_data, hf]

/-- Witness for the amended C4 at a concrete rejection status `6A 82`. -/
theorem C4_read_init_rejected_witness :
    SE.read_data [⟨[], 0x6A, 0x82⟩] [1] [2] [3] =
      (.done none, [], [SE.read_init_cmd [1] [2] [3]]) ∧
    (Secured.read_data ⟨[], 0x6A, 0x82⟩ [1] [2] [3]).1 = none :=
  C4_read_init_rejected [1] [2] [3] ⟨[], 0x6A, 0x82⟩ [] ⟨[], 0x6A, 0x82⟩
    (by decide) (by decide)

/-- **C5.** In both variable-length clients, a store whose INIT exchange
returns any status other than the full success code aborts immediately with
`False`: the transmitted trace is exactly the INIT frame — no CONTINUE
exchange is ever sent for that operation. -/
theorem C5_store_init_rejected (u a m : List Nat) (r : Resp) (s : Script)
    (h : ¬(r.sw1 = 0x90 ∧ r.sw2 = 0)) :
    SE.store_data (r :: s) u a m = (.done false, s, [SE.store_init_cmd u a]) ∧
    TA.store_data (r :: s) u a m = (.done false, s, [TA.store_init_cmd u a]) := by
  constructor
  · simp only [SE.store_data]
    rw [store_data_gen_init_rejected _ _ _ _ _ _ h]
    rfl
  · simp only [TA.store_data]
    rw [store_data_gen_init_rejected _ _ _ _ _ _ h]
    rfl

/-- Witness for C5 at a concrete rejection status `6A 84`. -/
theorem C5_store_init_rejected_witness :
    SE.store_data [⟨[], 0x6A, 0x84⟩] [1] [2] [3, 4] =
      (.done false, [], [SE.store_init_cmd [1] [2]]) ∧
    TA.store_data [⟨[], 0x6A, 0x84⟩] [1] [2] [3, 4] =
      (.done false, [], [TA.store_init_cmd [1] [2]]) :=
  C5_store_init_rejected [1] [2] [3, 4] ⟨[], 0x6A, 0x84⟩ [] (by decide)

/-- **C6 counterexample.**  The codec treats a *present but empty* payload
exactly like an absent one, because of Python's truthiness test `if data:`.
The store FINALIZE call passes the empty payload `[]`, and the resulting
frame is bare `[cla, ins, p1, p2]` — it does not carry the one-byte length
prefix `0` that the claim requires for every present payload. -/
theorem C6_counterexample :
    send_apdu_command CLA INS_STORE_DATA_FINALIZE 0 0 (some []) none =
      [0x80, 0x12, 0, 0] ∧
    send_apdu_command CLA INS_STORE_DATA_FINALIZE 0 0 (some []) none ≠
      [0x80, 0x12, 0, 0, 0] := by
  constructor
  · rfl
  · decide

/-- **C6 (amended).**  For every frame built by the codec: when a *nonempty*
payload is present the encoded frame carries a one-byte length prefix
followed by the payload bytes (and the expected-length byte, when given);
when the payload is absent but an expected-response-length is given the frame
carries a zero-length field followed by the expected-length byte; and an
empty payload is treated exactly like an absent one. -/
theorem C6_frame_layout (cla ins p1 p2 l : Nat) (d : List Nat)
    (le : Option Nat) (hd : d ≠ []) :
    send_apdu_command cla ins p1 p2 (some d) le =
      [cla, ins, p1, p2, d.length] ++ d ++ le.toList ∧
    send_apdu_command cla ins p1 p2 none (some l) = [cla, ins, p1, p2, 0, l] ∧
    send_apdu_command cla ins p1 p2 (some []) le =
      send_apdu_command cla ins p1 p2 none le := by
  refine ⟨?_, rfl, ?_⟩
  · cases le <;> simp [send_apdu_command, hd]
  · cases le <;> rfl

/-- Witness for the amended C6 at a concrete nonempty payload. -/
theorem C6_frame_layout_witness :
    send_apdu_command 0x80 0x11 0 0 (some [1, 2]) none =
      [0x80, 0x11, 0, 0, 2] ++ [1, 2] ++ (none : Option Nat).toList ∧
    send_apdu_command 0x80 0x11 0 0 none (some 5) = [0x80, 0x11, 0, 0, 0, 5] ∧
    send_apdu_command 0x80 0x11 0 0 (some []) (none : Option Nat) =
      send_apdu_command 0x80 0x11 0 0 none none :=
  C6_frame_layout 0x80 0x11 0 0 5 [1, 2] none (by decide)

/-- **C7.** (Modelled from the spec: the Session/State Tracker of §4.4 has no
counterpart in `src/`.)  A CONTINUE or FINALIZE issued when no INIT has
previously succeeded in the session — i.e. no `TransferState` is active —
fails fast with `NoActiveOperation`, and the list of frames handed to the
transport is empty: nothing is sent. -/
theorem C7_no_active_operation (s : Session) (chunk : List Nat)
    (h : s.active = none) :
    sessionContinueStore s chunk = (.error .noActiveOperation, []) ∧
    sessionFinalize s = (.error .noActiveOperation, []) := by
  constructor
  · simp [sessionContinueStore, h]
  · simp [sessionFinalize, h]

/-- Witness for C7 at the idle session. -/
theorem C7_no_active_operation_witness :
    sessionContinueStore Session.idle [1, 2] = (.error .noActiveOperation, []) ∧
    sessionFinalize Session.idle = (.error .noActiveOperation, []) :=
  C7_no_active_operation Session.idle [1, 2] rfl

/-- **C8.** In both variable-length clients, a read INIT exchange whose
response payload is shorter than 2 bytes makes the operation fail: the client
returns no payload and the trace is exactly the INIT frame (no CONTINUE is
issued) — this holds whatever the status bytes are.  Otherwise (INIT
accepted, at least 2 response bytes) the first two response bytes,
interpreted big-endian, give the total message length, which drives the
`test_applet.py` read loop. -/
theorem C8_read_init_length (u a sig : List Nat) (r : Resp) (s : Script) :
    (r.data.length < 2 →
      SE.read_data (r :: s) u a sig =
        (.done none, s, [SE.read_init_cmd u a sig]) ∧
      TA.read_data (r :: s) u a = (.done none, s, [TA.read_init_cmd u a])) ∧
    (r.sw1 = 0x90 → r.sw2 = 0 → 2 ≤ r.data.length → r.data.getD 1 0 < 256 →
      TA.msg_length r.data = 256 * r.data.getD 0 0 + r.data.getD 1 0 ∧
      TA.read_data (r :: s) u a =
        ((TA.read_loop s [] (TA.msg_length r.data)).1,
         (TA.read_loop s [] (TA.msg_length r.data)).2.1,
         TA.read_init_cmd u a :: (TA.read_loop s [] (TA.msg_length r.data)).2.2)) := by
  constructor
  · intro hlt
    constructor
    · by_cases h90 : r.sw1 = 0x90
      · simp [SE.read_data, h90, hlt]
      · simp [SE.read_data, h90]
    · by_cases h90 : r.sw1 = 0x90 ∧ r.sw2 = 0
      · have : ¬(2 ≤ r.data.length) := by omega
        simp [TA.read_data, h90, this]
      · simp [TA.read_data, h90]
  · intro h1 h2 hlen hb
    constructor
    · exact shiftLeft_lor_eq _ _ hb
    · simp [TA.read_data, h1, h2, hlen]

/-- Witness for C8: a 1-byte INIT response fails both clients with only the
INIT frame sent; a 2-byte response `[1, 4]` yields the big-endian total
length 260 and hands it to the TA loop. -/
theorem C8_read_init_length_witness :
    (SE.read_data [⟨[7], 0x90, 0⟩] [1] [2] [3] =
       (.done none, [], [SE.read_init_cmd [1] [2] [3]]) ∧
     TA.read_data [⟨[7], 0x90, 0⟩] [1] [2] =
       (.done none, [], [TA.read_init_cmd [1] [2]])) ∧
    (TA.msg_length [1, 4] = 256 * 1 + 4 ∧
     TA.read_data [⟨[1, 4], 0x90, 0⟩] [1] [2] =
       ((TA.read_loop [] [] (TA.msg_length [1, 4])).1,
        (TA.read_loop [] [] (TA.msg_length [1, 4])).2.1,
        TA.read_init_cmd [1] [2] ::
          (TA.read_loop [] [] (TA.msg_length [1, 4])).2.2)) :=
  ⟨(C8_read_init_length [1] [2] [3] ⟨[7], 0x90, 0⟩ []).1 (by decide),
   (C8_read_init_length [1] [2] [3] ⟨[1, 4], 0x90, 0⟩ []).2 rfl rfl
     (by decide) (by decide)⟩

/-- **C9.** In the fixed-length variant every stored field is padded with
trailing zero bytes to its fixed width (32 for username, 64 for address, 32
for message); a successful read returns the response with *all* trailing zero
bytes stripped; consequently read-after-store returns the original message
exactly when the message does not end in a zero byte, and otherwise yields a
strictly different list that is a truncation (a `take`-prefix) of the
message. -/
theorem C9_fixed_padding_roundtrip (u a m sig resp : List Nat) :
    Secured.store_record u a m =
      (u ++ List.replicate (32 - u.length) 0) ++
        (a ++ List.replicate (64 - a.length) 0) ++
          (m ++ List.replicate (32 - m.length) 0) ∧
    Secured.read_data ⟨resp, 0x90, 0⟩ u a sig =
      (some (Secured.rstrip_zero resp), Secured.read_cmd u a sig) ∧
    Secured.rstrip_zero (Secured.pad_data m Secured.MESSAGE_LENGTH) =
      Secured.rstrip_zero m ∧
    (m.getLast? ≠ some 0 →
      Secured.rstrip_zero (Secured.pad_data m Secured.MESSAGE_LENGTH) = m) ∧
    (m.getLast? = some 0 →
      Secured.rstrip_zero (Secured.pad_data m Secured.MESSAGE_LENGTH) ≠ m ∧
      ∃ k, Secured.rstrip_zero (Secured.pad_data m Secured.MESSAGE_LENGTH) =
        m.take k) := by
  refine ⟨rfl, by simp [Secured.read_data], Secured.rstrip_zero_pad_data m _,
    ?_, ?_⟩
  · intro h
    rw [Secured.rstrip_zero_pad_data m _]
    exact Secured.rstrip_zero_of_getLast m h
  · intro h
    rw [Secured.rstrip_zero_pad_data m _]
    exact Secured.rstrip_zero_of_getLast_zero m h

/-- Witness for C9: a message not ending in zero survives the round trip
unchanged; one ending in zero comes back truncated. -/
theorem C9_fixed_padding_roundtrip_witness :
    Secured.rstrip_zero (Secured.pad_data [1, 2] Secured.MESSAGE_LENGTH) =
      [1, 2] ∧
    (Secured.rstrip_zero (Secured.pad_data [1, 0] Secured.MESSAGE_LENGTH) ≠
      [1, 0] ∧
     ∃ k, Secured.rstrip_zero (Secured.pad_data [1, 0] Secured.MESSAGE_LENGTH) =
       [1, 0].take k) :=
  ⟨(C9_fixed_padding_roundtrip [] [] [1, 2] [] []).2.2.2.1 (by decide),
   (C9_fixed_padding_roundtrip [] [] [1, 0] [] []).2.2.2.2 (by decide)⟩

/-- **C10.** The fixed-length variant's `pad_data` never truncates: any input
already at least as long as the target width is returned unchanged, the input
is always an unmodified prefix of the padded output, and over-long username,
address and message fields are therefore sent at their full length in the
store record. -/
theorem C10_pad_never_truncates (d u a m : List Nat) (w : Nat) :
    (w ≤ d.length → Secured.pad_data d w = d) ∧
    (Secured.pad_data d w).take d.length = d ∧
    (32 ≤ u.length → 64 ≤ a.length → 32 ≤ m.length →
      Secured.store_record u a m = u ++ a ++ m) := by
  refine ⟨?_, ?_, ?_⟩
  · intro h
    simp [Secured.pad_data, Nat.sub_eq_zero_of_le h]
  · simp [Secured.pad_data, List.take_left]
  · intro hu ha hm
    simp [Secured.store_record, Secured.pad_data, Secured.USERNAME_LENGTH,
      Secured.ADDR_LENGTH, Secured.MESSAGE_LENGTH, Nat.sub_eq_zero_of_le,
      hu, ha, hm]

/-- Witness for C10: a 3-byte field with width 2 is sent unchanged, and a
store of over-long fields carries them in full. -/
theorem C10_pad_never_truncates_witness :
    Secured.pad_data [1, 2, 3] 2 = [1, 2, 3] ∧
    Secured.store_record (List.replicate 33 5) (List.replicate 65 6)
        (List.replicate 40 7) =
      List.replicate 33 5 ++ List.replicate 65 6 ++ List.replicate 40 7 :=
  ⟨(C10_pad_never_truncates [1, 2, 3] [] [] [] 2).1 (by decide),
   (C10_pad_never_truncates [] (List.replicate 33 5) (List.replicate 65 6)
       (List.replicate 40 7) 0).2.2 (by decide) (by decide) (by decide)⟩

end CryptoCustody
